import Mathlib

/-!
Verification of the portfolio-site frontend: a shallow embedding of its
data records and page logic (blog-post loader, project filters,
scroll-spy navigation, Mermaid diagram renderer, contact form), with
theorems settling the specification claims about them.
-/

namespace Portfolio

/-- A blog post record, as in the `BLOG_POSTS` literal of the constants
module: identifier, title, excerpt, read-time estimate, publish date,
tags, optional featured flag, slug. -/
structure BlogPost where
  id : String
  title : String
  excerpt : String
  readTime : String
  publishedAt : String
  tags : List String
  featured : Bool := false
  slug : String
deriving Repr, DecidableEq

/-- The static `BLOG_POSTS` array from the constants module. -/
def BLOG_POSTS : List BlogPost := [
  { id := "1",
    title := "Building Production-Ready RAG Systems: Lessons from Enterprise AI",
    excerpt := "Deep dive into the architectural decisions and engineering practices that make RAG systems scalable, maintainable, and production-ready. From document parsing pipelines to multimodal embedding strategies.",
    readTime := "12 min read",
    publishedAt := "2024-12-15",
    tags := ["RAG", "Production", "LangChain", "Architecture"],
    featured := true,
    slug := "production-ready-rag-systems" },
  { id := "5",
    title := "Debugging LLM Applications: Common Pitfalls and Solutions",
    excerpt := "Lessons learned from maintaining and debugging production LLM applications. From chunking strategies to context management and performance optimization.",
    readTime := "11 min read",
    publishedAt := "2024-10-05",
    tags := ["Debugging", "LLMs", "Production", "Troubleshooting"],
    featured := true,
    slug := "debugging-llm-applications" },
  { id := "6",
    title := "LangGraph for Complex AI Workflows: Beyond Simple Chains",
    excerpt := "Moving from linear LangChain workflows to complex graph-based architectures. How LangGraph enables more sophisticated AI application patterns.",
    readTime := "13 min read",
    publishedAt := "2024-09-18",
    tags := ["LangGraph", "AI Workflows", "Graph Architecture", "Advanced Patterns"],
    featured := false,
    slug := "langgraph-complex-workflows" }]

/-- The static `CONTACT_INFO` record from the constants module. -/
structure ContactInfo where
  name : String
  email : String
  github : String
  linkedin : String
  location : String
deriving Repr, DecidableEq

/-- The concrete `CONTACT_INFO` literal. -/
def CONTACT_INFO : ContactInfo :=
  { name := "Aymane Nouhail",
    email := "Aymane.Nouhail@gmail.com",
    github := "https://github.com/aymane-nouhail",
    linkedin := "https://linkedin.com/in/aymane-nouhail",
    location := "Paris, France" }

/-- A navigation item of the `NAV_ITEMS` array: a section id and a label. -/
structure NavItem where
  id : String
  label : String
deriving Repr, DecidableEq

/-- The static `NAV_ITEMS` array from the constants module. -/
def NAV_ITEMS : List NavItem := [
  { id := "home", label := "Home" },
  { id := "about", label := "About" },
  { id := "projects", label := "Projects" },
  { id := "blog", label := "Blog" },
  { id := "contact", label := "Contact" }]

/-! ## Blog-post page (`BlogPost.tsx`) -/

/-- `currentPost`: `BLOG_POSTS.find(post => post.slug === slug)`, where the
route parameter `slug` may be absent (strict equality with `undefined` is
false for every post). -/
def currentPost (slug : Option String) : Option BlogPost :=
  BLOG_POSTS.find? (fun post => some post.slug == slug)

/-- The page renders either the not-found view (the heading
`Blog Post Not Found`) or the article view for the found post. -/
inductive BlogPostView where
  | notFound
  | article (post : BlogPost)
deriving Repr, DecidableEq

/-- The top-level branch of the `BlogPost` component: when `currentPost` is
absent the not-found view is returned, otherwise the article view. -/
def renderBlogPost (slug : Option String) : BlogPostView :=
  match currentPost slug with
  | none => BlogPostView.notFound
  | some post => BlogPostView.article post

/-- The More Articles list:
`BLOG_POSTS.filter(post => post.slug !== slug).slice(0, 2)`. -/
def moreArticles (slug : Option String) : List BlogPost :=
  (BLOG_POSTS.filter (fun post => !(some post.slug == slug))).take 2

/-- Outcome of `fetch` on the markdown path: a response with ok status and
body text, a response whose `ok` is false, or a thrown/rejected promise. -/
inductive FetchResult where
  | ok (text : String)
  | notOk
  | throws
deriving Repr, DecidableEq

/-- Outcome of the dynamic `import(../data/blog-posts/slug.md?raw)`: a
module with a `default` string export, or a rejection.  The two dynamic
attempts of `loadBlogPost` name the same module specifier, so one
outcome covers both. -/
inductive ImportResult where
  | ok (text : String)
  | throws
deriving Repr, DecidableEq

/-- The three pieces of component state touched by the loader:
`content`, `loading`, `error`. -/
structure BlogPostState where
  content : String
  loading : Bool
  error : String
deriving Repr, DecidableEq

/-- The `useState` initial values: empty content, loading true, no error. -/
def initialBlogPostState : BlogPostState :=
  { content := "", loading := true, error := "" }

/-- The primitive effects the loader performs, in order: the network fetch
and each dynamic-import attempt. -/
inductive LoadEvent where
  | fetchAttempt
  | importAttempt
deriving Repr, DecidableEq

/-- The static error message set when loading fails. -/
def failedMessage : String := "Failed to load blog post content."

/-- The outer `catch` block of `loadBlogPost`: try the dynamic import; on
success store its default export as content, on rejection set the static
error message. -/
def catchFallback (imp : ImportResult) (s : BlogPostState) :
    BlogPostState × List LoadEvent :=
  match imp with
  | ImportResult.ok text => ({ s with content := text }, [LoadEvent.importAttempt])
  | ImportResult.throws => ({ s with error := failedMessage }, [LoadEvent.importAttempt])

/-- `loadBlogPost`, with the environment outcomes made explicit.  Control
flow follows the source: an early return when the slug is falsy (absent or
empty); otherwise `setLoading(true)`, the fetch, on a non-ok response a
dynamic import inside the `try` (whose rejection escapes to the outer
`catch`, which attempts the import again), on a thrown fetch the
catch-block import directly, and a `finally` that sets `loading` to
false.  The second component records the fetch/import attempts in the order performed. -/
def loadBlogPost (slug : Option String) (fetch : FetchResult)
    (imp : ImportResult) (s : BlogPostState) : BlogPostState × List LoadEvent :=
  if slug.getD "" = "" then (s, [])
  else
    let s1 := { s with loading := true }
    let step : BlogPostState × List LoadEvent :=
      match fetch with
      | FetchResult.ok text => ({ s1 with content := text }, [LoadEvent.fetchAttempt])
      | FetchResult.notOk =>
          match imp with
          | ImportResult.ok text =>
              ({ s1 with content := text },
               [LoadEvent.fetchAttempt, LoadEvent.importAttempt])
          | ImportResult.throws =>
              let c := catchFallback imp s1
              (c.1, [LoadEvent.fetchAttempt, LoadEvent.importAttempt] ++ c.2)
      | FetchResult.throws =>
          let c := catchFallback imp s1
          (c.1, [LoadEvent.fetchAttempt] ++ c.2)
    ({ step.1 with loading := false }, step.2)

/-! ## Projects section (`ProjectsSection.tsx`) -/

/-- A project record, as in the `projects` literal of the projects
section: text fields, technology and category tags, optional links,
achievements, company and period, optional featured flag. -/
structure Project where
  id : String
  title : String
  description : String
  longDescription : String
  techStack : List String
  categories : List String
  achievements : List String
  demoUrl : Option String := none
  githubUrl : Option String := none
  company : Option String := none
  period : Option String := none
  featured : Bool := false
deriving Repr, DecidableEq

/-- The static `projects` array of the projects section, with every field
of each record kept verbatim. -/
def projects : List Project := [
  { id := "carrefour-rag",
    title := "RAG-based Radio Ad Generator",
    description := "AI-powered platform for generating radio advertisement scripts from product briefs",
    longDescription := "Built a comprehensive platform for a major retail client that parsed 500+ PowerPoint slides into structured data, separating main scripts and diffusion dates. Implemented RAG architecture with script embedding and retrieval search to feed relevant previous ads to the LLM for inspiration. Features hard-coded logic for determining appropriate date variations based on diffusion and availability dates. Transitioned from notebooks to production on cloud platform.",
    techStack := ["Python", "LangChain", "Pandas", "RAG", "Prompt Engineering", "Streamlit"],
    categories := ["RAG", "NLP", "Production"],
    achievements := ["500+ PowerPoint slides processed", "Production deployment on cloud platform", "Advanced prompt engineering"],
    company := some "Publicis Re:Sources",
    period := some "Oct 2024 ‚Äì present",
    featured := true },
  { id := "multimodal-ai-enhancement",
    title := "Multimodal AI Enhancement",
    description := "Extended agentic conversational AI with comprehensive multimedia processing capabilities",
    longDescription := "Led the implementation of multimodal support for an enterprise conversational AI system, enabling processing of images, videos, and audio files alongside text. Developed unified multimodal pipelines that seamlessly integrate visual and audio understanding with existing RAG architecture. Implemented advanced preprocessing for different media types and optimized inference workflows for production deployment.",
    techStack := ["Multimodal AI", "Computer Vision", "Audio Processing", "LangChain", "Pipeline Optimization"],
    categories := ["Multimodal", "AI Enhancement", "Production"],
    achievements := ["Image, video & audio processing", "Unified multimodal pipeline", "Production optimization", "Media type integration"],
    company := some "Publicis Re:Sources",
    period := some "Oct 2024 ‚Äì present",
    featured := true },
  { id := "conversational-ai-maintenance",
    title := "Conversational AI System Maintenance",
    description := "Comprehensive maintenance and optimization of enterprise-grade agentic conversational AI",
    longDescription := "Responsible for maintaining and enhancing a production conversational AI system, focusing on bug fixes, performance optimization, and system reliability. Implemented chunk deduplication optimization, resolved web source display issues, and corrected page numbering inconsistencies. Developed comprehensive testing framework with mocking functionality for AgentExecutor, reducing test costs and improving development speed.",
    techStack := ["LangChain", "LangGraph", "Testing Frameworks", "Performance Optimization", "Debugging"],
    categories := ["Maintenance", "Testing", "Performance", "Production"],
    achievements := ["Bug resolution & system stability", "Test framework development", "Performance optimization", "Cost reduction through mocking"],
    company := some "Publicis Re:Sources",
    period := some "Oct 2024 ‚Äì present" },
  { id := "textstudio-api",
    title := "TextStudio Translation & Summarization API",
    description := "Containerized FastAPI service for document processing deployed on Azure",
    longDescription := "Developed and deployed a production-ready API for document translation and summarization using FastAPI and LangChain. The service is containerized with Docker and deployed to Azure Container Registry, providing scalable document processing capabilities. Features async LLM inference endpoints with comprehensive error handling and monitoring.",
    techStack := ["FastAPI", "LangChain", "Docker", "Azure Container Registry", "Async Programming"],
    categories := ["Production", "Microservices", "DevOps"],
    achievements := ["Azure production deployment", "Containerized architecture", "API documentation"],
    company := some "Publicis Re:Sources",
    period := some "Oct 2024 ‚Äì present",
    featured := true },
  { id := "smart-home-assistant",
    title := "Smart Home Voice Assistant",
    description := "Raspberry Pi-based RAG voice assistant for natural language device control",
    longDescription := "Developed a comprehensive voice assistant POC for a green technology company featuring natural language device automation and hands-free activation using trigger words. Built with RAG architecture for knowledge-base Q&A and smart device integration, supporting lights, appliances, and multimedia control through conversational interface.",
    techStack := ["Python", "Raspberry Pi", "RAG", "Voice Recognition", "IoT Integration", "Natural Language Processing"],
    categories := ["IoT", "Voice AI", "RAG"],
    achievements := ["Voice activation system", "Smart home integration", "Natural language control", "Edge deployment"],
    company := some "Green Energy Park ",
    period := some "Apr 2024 ‚Äì July 2024",
    featured := true },
  { id := "moodai-therapy",
    title := "MoodAI Therapy Assistant",
    description := "Dynamic journaling app with mood-aware chatbot personas and longitudinal tracking",
    longDescription := "Created a proof-of-concept therapy assistant featuring mood-aware chatbot personas that adapt tone based on user sentiment analysis. Developed RAG pipeline mapping journal sentiment to tailored CBT-based prompts for personalized guidance. Includes time-series database for longitudinal mood tracking with CSV export capabilities for user and therapist review.",
    techStack := ["React", "FastAPI", "Azure", "Time-series Database", "Sentiment Analysis", "CBT", "RAG Pipeline"],
    categories := ["Healthcare", "NLP", "Full-Stack"],
    achievements := ["Sentiment-aware responses", "Longitudinal mood tracking", "CBT integration", "Azure deployment"],
    company := some "Personal Project",
    period := some "Personal Project",
    featured := true },
  { id := "salesforce-optimization",
    title := "CRM Opportunity Deduplication",
    description := "AI-powered solution to prevent duplicate opportunities through advanced prompt engineering",
    longDescription := "Developed prompt engineering solution to avoid opportunity duplication in CRM systems. Created Python POC demonstrating JSON preprocessing methodology to simplify LLM classification tasks. Proposed innovative approach to preprocess data before LLM analysis, improving accuracy and reduced computational overhead.",
    techStack := ["Python", "Prompt Engineering", "JSON Processing", "CRM Integration", "LLM Classification"],
    categories := ["NLP", "Optimization", "CRM"],
    achievements := ["Prompt engineering innovation", "Python POC development", "Classification optimization"],
    company := some "Publicis Re:Sources",
    period := some "Oct 2024 ‚Äì present" },
  { id := "llm-clustering-framework",
    title := "LLM Clustering Framework",
    description := "Comprehensive framework for evaluating LLM-enhanced clustering techniques with multiple enhancement methods",
    longDescription := "Built a comprehensive evaluation framework for LLM-enhanced clustering techniques inspired by Viswanathan et al. (2023). Implemented multiple enhancement methods including keyphrase expansion, LLM-based clustering correction, and pairwise constraints with LLM oracle. Features configurable prompts, automatic embedding caching, and comprehensive multi-metric evaluation (Accuracy, F1, NMI, ARI) across different datasets.",
    techStack := ["Python", "OpenAI Embeddings", "Hugging Face", "KMeans", "LLM Integration", "Research Framework"],
    categories := ["Clustering", "Research", "Evaluation"],
    achievements := ["Multi-method clustering evaluation", "LLM oracle integration", "Automated experiment logging", "Research framework implementation"],
    githubUrl := some "https://github.com/Aymane-Nouhail/llm-clustering-project",
    company := some "Personal Project",
    period := some "May 2025",
    featured := true },
  { id := "medical-thesis-statistical-analysis",
    title := "Medical Thesis Statistical Analysis",
    description := "Comprehensive statistical analysis for two medical research theses examining pediatric pain management and medical education outcomes",
    longDescription := "Provided end-to-end statistical consulting for two independent medical research projects. First study analyzed the impact of parental presence on pediatric pain perception in clinical settings, involving complex survey data and pain scale measurements. Second study examined the relationship between training satisfaction and career pathway choices among medical students and residents. Performed comprehensive data preprocessing, exploratory data analysis, hypothesis testing, and results interpretation. Delivered publication-ready statistical reports with clear visualizations and clinical interpretations for medical audiences.",
    techStack := ["Python", "Pandas", "NumPy", "Matplotlib", "Seaborn", "SciPy", "Statsmodels", "Statistical Testing", "Data Visualization"],
    categories := ["Healthcare", "Statistics", "Research", "Data Analysis"],
    achievements := ["Two medical thesis statistical analyses", "Advanced hypothesis testing (Mann-Whitney, Chi-Squared)", "Clinical data interpretation", "Publication-ready reporting", "Medical research methodology"],
    company := some "Freelance Client",
    period := some "Medical Research Consulting" },
  { id := "nameplate-information-extraction",
    title := "Nameplate Information Extraction Model",
    description := "OCR and NER-based system for extracting structured information from industrial equipment nameplates",
    longDescription := "Developed a comprehensive information extraction pipeline for processing industrial equipment nameplates using OCR and custom Named Entity Recognition models. The system transcribes text from nameplate images and extracts key information including manufacturer, model, and serial numbers. Implemented data preprocessing and annotation workflows to prepare training data, then designed and optimized a custom NER model using spaCy. The solution enables automated digitization of equipment information for inventory management and maintenance tracking systems.",
    techStack := ["Python", "spaCy", "OCR", "Named Entity Recognition", "Data Preprocessing", "Text Annotation", "Model Training"],
    categories := ["NLP", "OCR", "Information Extraction", "Machine Learning"],
    achievements := ["Custom NER model development", "OCR text preprocessing pipeline", "Data annotation and structuring", "Performance evaluation with F1-score and recall metrics", "Industrial equipment data digitization"],
    company := some "Personal Project",
    period := some "NLP Research Project" }]

/-- The first two stages of `filteredProjects`: restrict to featured
projects unless Show All is toggled, then restrict by the company
filter (the Personal/Freelance entry matching either the Personal
Project or the Freelance Client company). -/
def companyFeaturedFiltered (showAllProjects : Bool)
    (activeCompanyFilter : String) : List Project :=
  let f1 := if showAllProjects then projects
            else projects.filter (fun project => project.featured)
  if activeCompanyFilter = "All" then f1
  else if activeCompanyFilter = "Personal/Freelance" then
    f1.filter (fun project =>
      project.company == some "Personal Project" ||
      project.company == some "Freelance Client")
  else
    f1.filter (fun project => project.company == some activeCompanyFilter)

/-- `filteredProjects`: after the featured and company stages, keep every
project when the active technology filters include All, otherwise keep the
projects having some category among the active filters. -/
def filteredProjects (showAllProjects : Bool) (activeCompanyFilter : String)
    (activeFilters : List String) : List Project :=
  let filtered := companyFeaturedFiltered showAllProjects activeCompanyFilter
  if "All" ∈ activeFilters then filtered
  else
    filtered.filter (fun project =>
      project.categories.any (fun category => activeFilters.contains category))

/-- `handleFilterToggle`: clicking All resets to the singleton All list;
clicking a specific category first drops All, then removes the category if
present (restoring the All singleton when nothing is left) or appends it
otherwise. -/
def handleFilterToggle (category : String) (prev : List String) : List String :=
  if category = "All" then ["All"]
  else
    let newFilters := prev.filter (fun f => f != "All")
    if newFilters.contains category then
      let updated := newFilters.filter (fun f => f != category)
      if updated = [] then ["All"] else updated
    else
      newFilters ++ [category]

/-- The state invariant maintained by the technology-filter list: it is
never empty, and it contains All exactly when it is the singleton All. -/
def filterInvariant (l : List String) : Prop :=
  l ≠ [] ∧ ("All" ∈ l ↔ l = ["All"])

/-! ## Navigation scroll-spy (`Navigation.tsx`) -/

/-- The downward loop of the navigation `handleScroll` handler: starting
from the last nav item, the first section element that exists and whose
`offsetTop` is at most the scroll position wins; `dom` gives the offset of
a section element by id, or none when `getElementById` finds nothing. -/
def scrollScan (dom : String → Option Nat) (scrollPosition : Nat) :
    List NavItem → Option String
  | [] => none
  | item :: rest =>
    match scrollScan dom scrollPosition rest with
    | some found => some found
    | none =>
      match dom item.id with
      | some offsetTop =>
          if offsetTop ≤ scrollPosition then some item.id else none
      | none => none

/-- The navigation `handleScroll` handler: an early return on blog-post
pages; otherwise the scroll position is `window.scrollY + 100` and the
downward scan over `NAV_ITEMS` either sets the active section or leaves it
unchanged when no section qualifies. -/
def handleScroll (isBlogPostPage : Bool) (dom : String → Option Nat)
    (scrollY : Nat) (activeSection : String) : String :=
  if isBlogPostPage then activeSection
  else
    match scrollScan dom (scrollY + 100) NAV_ITEMS with
    | some found => found
    | none => activeSection

/-- Worded from the claim: the last section in the nav-item order that
exists and whose top offset is at most the scroll position. -/
def lastSectionHit (dom : String → Option Nat) (scrollPosition : Nat)
    (items : List NavItem) : Option String :=
  (items.reverse.find? (fun item =>
    match dom item.id with
    | some offsetTop => decide (offsetTop ≤ scrollPosition)
    | none => false)).map (fun item => item.id)

/-! ## Mermaid diagram renderer (`MermaidDiagram.tsx`) -/

/-- Outcome of `mermaid.render`: an svg string, or a thrown error. -/
inductive RenderResult where
  | ok (svg : String)
  | err (msg : String)
deriving Repr, DecidableEq

/-- The fallback markup written into the diagram element by the `catch`
block of `renderDiagram`: an error banner plus a collapsible view of the
diagram source. -/
def mermaidErrorBox (chart : String) : String :=
  "\n              <div class=\"bg-muted/10 border border-border rounded-lg p-4 text-center\">\n                <p class=\"text-muted-foreground mb-2\">⚠️ Error rendering diagram</p>\n                <details class=\"text-left\">\n                  <summary class=\"text-sm text-muted-foreground cursor-pointer hover:text-foreground\">View diagram source</summary>\n                  <pre class=\"text-xs text-muted-foreground mt-2 overflow-x-auto bg-background/50 p-2 rounded border border-border/50\">"
    ++ chart ++ "</pre>\n                </details>\n              </div>\n            "

/-- `renderDiagram`: when the element exists and the chart is non-empty,
either the rendered svg or, on a render error, the fallback error markup is
written into the element; otherwise the element is left untouched (none).
-/
def renderDiagram (chart : String) (hasElement : Bool)
    (render : RenderResult) : Option String :=
  if hasElement && chart != "" then
    match render with
    | RenderResult.ok svg => some svg
    | RenderResult.err _ => some (mermaidErrorBox chart)
  else none

/-! ## Contact form (`ContactSection.tsx`) -/

/-- Code points left unescaped by `encodeURIComponent`: ASCII letters and
digits and the marks `-` `_` `.` `!` `~` `*` `(` `)` and the apostrophe
(code 39). -/
def isUnreservedCode (n : Nat) : Bool :=
  (65 ≤ n && n ≤ 90) || (97 ≤ n && n ≤ 122) || (48 ≤ n && n ≤ 57) ||
  n == 45 || n == 95 || n == 46 || n == 33 || n == 126 || n == 42 ||
  n == 39 || n == 40 || n == 41

/-- The UTF-8 bytes of a code point, as percent-encoded by
`encodeURIComponent`. -/
def utf8Bytes (n : Nat) : List Nat :=
  if n < 128 then [n]
  else if n < 2048 then [192 + n / 64, 128 + n % 64]
  else if n < 65536 then [224 + n / 4096, 128 + (n / 64) % 64, 128 + n % 64]
  else [240 + n / 262144, 128 + (n / 4096) % 64, 128 + (n / 64) % 64, 128 + n % 64]

/-- An uppercase hexadecimal digit, as used by `encodeURIComponent`. -/
def hexDigitChar (n : Nat) : Char :=
  if n < 10 then Char.ofNat (48 + n) else Char.ofNat (55 + n)

/-- A percent-escaped byte, `%XY` with uppercase hex digits. -/
def percentByte (b : Nat) : String :=
  String.mk [Char.ofNat 37, hexDigitChar (b / 16), hexDigitChar (b % 16)]

/-- `encodeURIComponent`: unreserved characters pass through, every other
character is replaced by the percent-escapes of its UTF-8 bytes. -/
def encodeURIComponent (s : String) : String :=
  String.join (s.data.map (fun c =>
    if isUnreservedCode c.toNat then String.mk [c]
    else String.join ((utf8Bytes c.toNat).map percentByte)))

/-- The `formData` state of the contact section: name, email, subject,
message. -/
structure ContactFormData where
  name : String
  email : String
  subject : String
  message : String
deriving Repr, DecidableEq

/-- The body string built by `handleSubmit` before URL-encoding. -/
def contactBody (fd : ContactFormData) : String :=
  "Name: " ++ fd.name ++ "\nEmail: " ++ fd.email ++ "\n\nMessage:\n" ++ fd.message

/-- The `mailto:` URL built by `handleSubmit`: addressed to the contact
email, with the URL-encoded subject field and the URL-encoded body. -/
def mailtoLink (fd : ContactFormData) : String :=
  "mailto:" ++ CONTACT_INFO.email ++ "?subject=" ++
    encodeURIComponent fd.subject ++ "&body=" ++
    encodeURIComponent (contactBody fd)

/-- The observable effects of `handleSubmit`, in order: toggling the
submitting flag, assigning the mailto URL to `window.location.href`,
the success or error toast, resetting the form, and (never emitted by
this handler) a network request. -/
inductive ContactEffect where
  | setSubmitting (b : Bool)
  | openMailto (url : String)
  | toastSuccess
  | toastError
  | resetForm
  | networkRequest
deriving Repr, DecidableEq

/-- `handleSubmit` of the contact section: prevent default, set the
submitting flag, build the mailto URL and assign it to the location (the
one statement of the `try` body that can throw, abstracted by
`openThrows`), toast success and schedule the form reset; on a throw the
`catch` block toasts the error; the `finally` clears the submitting flag.
No network request is ever issued and no field value is validated. -/
def handleSubmit (fd : ContactFormData) (openThrows : Bool) :
    List ContactEffect :=
  [ContactEffect.setSubmitting true] ++
  (if openThrows then [ContactEffect.toastError]
   else [ContactEffect.openMailto (mailtoLink fd), ContactEffect.toastSuccess,
         ContactEffect.resetForm]) ++
  [ContactEffect.setSubmitting false]

/-! ## Static data store -/

/-- The static arrays and record of the constants module, gathered as the
one store the rendering code reads. -/
structure DataStore where
  blogPosts : List BlogPost
  projectList : List Project
  contactInfo : ContactInfo
deriving Repr, DecidableEq

/-- The store as built at module load time. -/
def initialStore : DataStore :=
  { blogPosts := BLOG_POSTS, projectList := projects, contactInfo := CONTACT_INFO }

/-- One render pass of the pages that read the static data: finding the
current post, building the More Articles list, filtering the projects.
Each underlying array method (find, filter, slice, includes, some) returns
a fresh value and writes nothing back, so the store component is returned
as received. -/
def renderReads (slug : Option String) (showAllProjects : Bool)
    (activeCompanyFilter : String) (activeFilters : List String)
    (st : DataStore) :
    (Option BlogPost × List BlogPost × List Project) × DataStore :=
  ((st.blogPosts.find? (fun post => some post.slug == slug),
    (st.blogPosts.filter (fun post => !(some post.slug == slug))).take 2,
    (let f1 := if showAllProjects then st.projectList
               else st.projectList.filter (fun project => project.featured)
     let f2 :=
       if activeCompanyFilter = "All" then f1
       else if activeCompanyFilter = "Personal/Freelance" then
         f1.filter (fun project =>
           project.company == some "Personal Project" ||
           project.company == some "Freelance Client")
       else f1.filter (fun project => project.company == some activeCompanyFilter)
     if "All" ∈ activeFilters then f2
     else f2.filter (fun project =>
       project.categories.any (fun category => activeFilters.contains category)))),
   st)

/-! ## Claim theorems -/

/-- C10: when the route supplies no slug, or an empty one, the loader
returns before touching any state and before fetching or importing
anything: the state comes back exactly as it was, the event trace is
empty, and since the initial state has `loading = true` the spinner is
never replaced. -/
theorem c10_missing_slug_loader_noop :
    (∀ fetch imp s, loadBlogPost none fetch imp s = (s, [])) ∧
    (∀ fetch imp s, loadBlogPost (some "") fetch imp s = (s, [])) ∧
    initialBlogPostState.loading = true := by
  refine ⟨fun fetch imp s => ?_, fun fetch imp s => ?_, rfl⟩ <;>
    simp [loadBlogPost]

/-- C1 counterexample: with a slug present, a non-ok fetch response and a
rejecting dynamic import, the loader attempts the import twice — the one
inside the `try` and the one the outer `catch` retries — so the trace has
three attempts in total and the claimed bound of a single import attempt
(no retry) fails. -/
theorem c1_counterexample :
    (loadBlogPost (some "production-ready-rag-systems") FetchResult.notOk
        ImportResult.throws initialBlogPostState).2 =
      [LoadEvent.fetchAttempt, LoadEvent.importAttempt, LoadEvent.importAttempt] ∧
    ¬((loadBlogPost (some "production-ready-rag-systems") FetchResult.notOk
        ImportResult.throws initialBlogPostState).2.count LoadEvent.importAttempt ≤ 1) := by
  constructor
  · rfl
  · decide

/-- C1 amended: the loader fetches first, exactly once; on a successful
fetch no import is attempted; on a thrown fetch the catch block makes
one import attempt; on a non-ok response the import is attempted in the
try block and, if it rejects, attempted once more by the outer catch
(three attempts in total); the error message can only appear when every
attempted import rejects and the fetch did not succeed. -/
theorem c1_amended_fallback_sequence (sl : String) (h : sl ≠ "")
    (fetch : FetchResult) (imp : ImportResult) (s : BlogPostState) :
    ((loadBlogPost (some sl) fetch imp s).2.head? = some LoadEvent.fetchAttempt) ∧
    ((loadBlogPost (some sl) fetch imp s).2.count LoadEvent.fetchAttempt = 1) ∧
    (∀ text, fetch = FetchResult.ok text →
      (loadBlogPost (some sl) fetch imp s).2 = [LoadEvent.fetchAttempt]) ∧
    (fetch = FetchResult.throws →
      (loadBlogPost (some sl) fetch imp s).2 =
        [LoadEvent.fetchAttempt, LoadEvent.importAttempt]) ∧
    (∀ text, fetch = FetchResult.notOk → imp = ImportResult.ok text →
      (loadBlogPost (some sl) fetch imp s).2 =
        [LoadEvent.fetchAttempt, LoadEvent.importAttempt]) ∧
    (fetch = FetchResult.notOk → imp = ImportResult.throws →
      (loadBlogPost (some sl) fetch imp s).2 =
        [LoadEvent.fetchAttempt, LoadEvent.importAttempt, LoadEvent.importAttempt]) ∧
    ((loadBlogPost (some sl) fetch imp s).1.error = failedMessage ∧
        s.error ≠ failedMessage →
      imp = ImportResult.throws ∧ ∀ text, fetch ≠ FetchResult.ok text) := by
  cases fetch <;> cases imp <;>
    simp_all [loadBlogPost, catchFallback, List.count_cons]

/-- C1 amended, witnessed at a concrete run: a thrown fetch for an
existing slug leads to exactly one catch-block import attempt. -/
theorem c1_amended_fallback_sequence_witness :
    (loadBlogPost (some "production-ready-rag-systems") FetchResult.throws
        ImportResult.throws initialBlogPostState).2 =
      [LoadEvent.fetchAttempt, LoadEvent.importAttempt] :=
  (c1_amended_fallback_sequence "production-ready-rag-systems" (by decide)
    FetchResult.throws ImportResult.throws initialBlogPostState).2.2.2.1 rfl

/-- C8: the More Articles list never holds more than two posts, never
holds a post with the current slug (in particular never the currently
displayed post), and equals the first two records of `BLOG_POSTS` whose
slug differs from the current one. -/
theorem c8_more_articles_excludes_current (slug : Option String) :
    (moreArticles slug).length ≤ 2 ∧
    (∀ post ∈ moreArticles slug, ¬(some post.slug = slug)) ∧
    (∀ q, currentPost slug = some q → q ∉ moreArticles slug) ∧
    moreArticles slug =
      (BLOG_POSTS.filter (fun post => decide (some post.slug ≠ slug))).take 2 := by
  have hmem : ∀ post ∈ moreArticles slug, ¬(some post.slug = slug) := by
    intro post hpost
    have hin : post ∈ BLOG_POSTS.filter (fun post => !(some post.slug == slug)) :=
      (List.take_sublist 2 _).subset hpost
    have := (List.mem_filter.mp hin).2
    simpa using this
  refine ⟨?_, hmem, ?_, ?_⟩
  · exact List.length_take_le 2 _
  · intro q hq hqmem
    have hq2 : BLOG_POSTS.find? (fun post => some post.slug == slug) = some q := hq
    have hpq := List.find?_some hq2
    exact hmem q hqmem (by simpa using hpq)
  · unfold moreArticles
    congr 1
    exact List.filter_congr (fun post _ => by
      by_cases hps : some post.slug = slug <;> simp [hps])

/-- C8 witnessed at the first slug: the list is short and the displayed
post (the head record of `BLOG_POSTS`) is not in it. -/
theorem c8_more_articles_excludes_current_witness :
    (moreArticles (some "production-ready-rag-systems")).length ≤ 2 ∧
    BLOG_POSTS.get ⟨0, by decide⟩ ∉ moreArticles (some "production-ready-rag-systems") :=
  ⟨(c8_more_articles_excludes_current (some "production-ready-rag-systems")).1,
   (c8_more_articles_excludes_current (some "production-ready-rag-systems")).2.2.1
     (BLOG_POSTS.get ⟨0, by decide⟩) rfl⟩

/-- C7: submitting the contact form emits the location assignment to the
mailto URL, never issues a network request (whether or not the location
assignment throws), and the URL is addressed to the contact email with
the URL-encoded subject field and the URL-encoded composition of the
name, email and message fields — for every field valuation, since the
handler applies no validation of its own. -/
theorem c7_contact_mailto (fd : ContactFormData) (openThrows : Bool) :
    ContactEffect.openMailto (mailtoLink fd) ∈ handleSubmit fd false ∧
    ContactEffect.networkRequest ∉ handleSubmit fd openThrows ∧
    mailtoLink fd = "mailto:" ++ CONTACT_INFO.email ++ "?subject=" ++
      encodeURIComponent fd.subject ++ "&body=" ++
      encodeURIComponent ("Name: " ++ fd.name ++ "\nEmail: " ++ fd.email ++
        "\n\nMessage:\n" ++ fd.message) := by
  refine ⟨by simp [handleSubmit], ?_, rfl⟩
  cases openThrows <;> simp [handleSubmit]

/-- C7 witnessed on concrete field values, with the resulting URL fully
evaluated. -/
theorem c7_contact_mailto_witness :
    ContactEffect.openMailto (mailtoLink ⟨"Jo", "jo@ex.com", "Hi", "Hello"⟩) ∈
      handleSubmit ⟨"Jo", "jo@ex.com", "Hi", "Hello"⟩ false ∧
    ContactEffect.networkRequest ∉ handleSubmit ⟨"Jo", "jo@ex.com", "Hi", "Hello"⟩ false ∧
    mailtoLink ⟨"Jo", "jo@ex.com", "Hi", "Hello"⟩ =
      "mailto:Aymane.Nouhail@gmail.com?subject=Hi&body=Name%3A%20Jo%0AEmail%3A%20jo%40ex.com%0A%0AMessage%3A%0AHello" :=
  ⟨(c7_contact_mailto ⟨"Jo", "jo@ex.com", "Hi", "Hello"⟩ false).1,
   (c7_contact_mailto ⟨"Jo", "jo@ex.com", "Hi", "Hello"⟩ false).2.1,
   by decide⟩

/-- C2: a slug matching no record of `BLOG_POSTS` renders the not-found
view; a slug matching some record renders the article view for a matching
record. -/
theorem c2_not_found_vs_article (slug : String) :
    ((∀ post ∈ BLOG_POSTS, post.slug ≠ slug) →
      renderBlogPost (some slug) = BlogPostView.notFound) ∧
    (∀ post ∈ BLOG_POSTS, post.slug = slug →
      ∃ q ∈ BLOG_POSTS, q.slug = slug ∧
        renderBlogPost (some slug) = BlogPostView.article q) := by
  constructor
  · intro hnone
    have hfind : currentPost (some slug) = none := by
      apply List.find?_eq_none.mpr
      intro post hpost
      simpa using hnone post hpost
    simp [renderBlogPost, hfind]
  · intro post hpost hslug
    have hsome : (BLOG_POSTS.find? (fun p => some p.slug == some slug)).isSome = true := by
      rw [List.find?_isSome]
      exact ⟨post, hpost, by simpa using hslug⟩
    obtain ⟨q, hq⟩ := Option.isSome_iff_exists.mp hsome
    have hq2 : currentPost (some slug) = some q := hq
    refine ⟨q, List.mem_of_find?_eq_some hq, ?_, by simp [renderBlogPost, hq2]⟩
    simpa using List.find?_some hq

/-- C2 witnessed: an absent slug yields the not-found view; the first
record's slug yields its article view. -/
theorem c2_not_found_vs_article_witness :
    renderBlogPost (some "no-such-slug") = BlogPostView.notFound ∧
    ∃ q ∈ BLOG_POSTS, q.slug = "production-ready-rag-systems" ∧
      renderBlogPost (some "production-ready-rag-systems") = BlogPostView.article q :=
  ⟨(c2_not_found_vs_article "no-such-slug").1 (by decide),
   (c2_not_found_vs_article "production-ready-rag-systems").2
     (BLOG_POSTS.get ⟨0, by decide⟩) (List.get_mem BLOG_POSTS 0 (by decide)) rfl⟩

/-- C3: with All absent from the active technology filters, every project
the filter returns carries at least one selected category; with All
selected, the result is exactly the list restricted only by the featured
toggle and the company filter. -/
theorem c3_category_filter_sound (showAllProjects : Bool)
    (activeCompanyFilter : String) (activeFilters : List String) :
    ("All" ∉ activeFilters →
      ∀ project ∈ filteredProjects showAllProjects activeCompanyFilter activeFilters,
        ∃ category ∈ project.categories, category ∈ activeFilters) ∧
    ("All" ∈ activeFilters →
      filteredProjects showAllProjects activeCompanyFilter activeFilters =
        companyFeaturedFiltered showAllProjects activeCompanyFilter) := by
  constructor
  · intro hAll project hproject
    unfold filteredProjects at hproject
    rw [if_neg hAll] at hproject
    have hpred := (List.mem_filter.mp hproject).2
    rw [List.any_eq_true] at hpred
    obtain ⟨category, hcmem, hcf⟩ := hpred
    exact ⟨category, hcmem, by simpa using hcf⟩
  · intro hAll
    unfold filteredProjects
    rw [if_pos hAll]

/-- C3 witnessed: filtering all projects by the RAG tag only returns
projects tagged RAG, and the All selection returns the company-and-
featured-restricted list. -/
theorem c3_category_filter_sound_witness :
    (∀ project ∈ filteredProjects true "All" ["RAG"],
      ∃ category ∈ project.categories, category ∈ ["RAG"]) ∧
    filteredProjects true "All" ["All"] = companyFeaturedFiltered true "All" :=
  ⟨(c3_category_filter_sound true "All" ["RAG"]).1 (by decide),
   (c3_category_filter_sound true "All" ["All"]).2 (by decide)⟩

/-- Each stage of the project filter only ever discards records, so its
output is a sublist of the static `projects` array. -/
theorem companyFeaturedFiltered_sublist (showAllProjects : Bool)
    (activeCompanyFilter : String) :
    (companyFeaturedFiltered showAllProjects activeCompanyFilter).Sublist projects := by
  have h2 : ∀ l : List Project, l.Sublist projects →
      (if activeCompanyFilter = "All" then l
       else if activeCompanyFilter = "Personal/Freelance" then
         l.filter (fun project => project.company == some "Personal Project" ||
           project.company == some "Freelance Client")
       else l.filter (fun project =>
         project.company == some activeCompanyFilter)).Sublist projects := by
    intro l hl
    split
    · exact hl
    · split
      · exact (List.filter_sublist _).trans hl
      · exact (List.filter_sublist _).trans hl
  unfold companyFeaturedFiltered
  split
  · exact h2 projects (List.Sublist.refl projects)
  · exact h2 (projects.filter fun project => project.featured)
      (List.filter_sublist projects)

/-- C5: the render-time reads return the data store exactly as given —
no operation writes to the static arrays — and every record they surface
is a record of the static arrays themselves: the found post is a member
of `BLOG_POSTS`, the More Articles list is a sublist of `BLOG_POSTS`, and
the filtered project list is a sublist of `projects`. -/
theorem c5_static_data_never_mutated (slug : Option String)
    (showAllProjects : Bool) (activeCompanyFilter : String)
    (activeFilters : List String) (st : DataStore) :
    (renderReads slug showAllProjects activeCompanyFilter activeFilters st).2 = st ∧
    (∀ post, currentPost slug = some post → post ∈ BLOG_POSTS) ∧
    (moreArticles slug).Sublist BLOG_POSTS ∧
    (filteredProjects showAllProjects activeCompanyFilter activeFilters).Sublist
      projects := by
  refine ⟨rfl, ?_, ?_, ?_⟩
  · intro post hpost
    have hpost2 : BLOG_POSTS.find? (fun p => some p.slug == slug) = some post := hpost
    exact List.mem_of_find?_eq_some hpost2
  · exact (List.take_sublist 2 _).trans (List.filter_sublist _)
  · unfold filteredProjects
    split
    · exact companyFeaturedFiltered_sublist _ _
    · exact (List.filter_sublist _).trans (companyFeaturedFiltered_sublist _ _)

/-- C5 witnessed: a concrete render pass hands the store back unchanged
and surfaces only records of the static arrays. -/
theorem c5_static_data_never_mutated_witness :
    (renderReads (some "production-ready-rag-systems") true "All" ["RAG"]
      initialStore).2 = initialStore ∧
    BLOG_POSTS.get ⟨0, by decide⟩ ∈ BLOG_POSTS ∧
    (moreArticles (some "production-ready-rag-systems")).Sublist BLOG_POSTS :=
  ⟨(c5_static_data_never_mutated (some "production-ready-rag-systems") true "All"
      ["RAG"] initialStore).1,
   (c5_static_data_never_mutated (some "production-ready-rag-systems") true "All"
      ["RAG"] initialStore).2.1 (BLOG_POSTS.get ⟨0, by decide⟩) rfl,
   (c5_static_data_never_mutated (some "production-ready-rag-systems") true "All"
      ["RAG"] initialStore).2.2.1⟩

/-- One toggle always lands in the invariant, whatever the previous list
was: the All branch resets to the singleton, and both specific-category
branches produce a non-empty list free of All unless they restore the
singleton. -/
theorem handleFilterToggle_invariant (category : String) (l : List String) :
    filterInvariant (handleFilterToggle category l) := by
  unfold handleFilterToggle filterInvariant
  by_cases hAll : category = "All"
  · simp [hAll]
  · rw [if_neg hAll]
    have hnotAll : "All" ∉ l.filter (fun f => f != "All") := by
      intro hmem
      have := (List.mem_filter.mp hmem).2
      simp at this
    by_cases hc : (l.filter (fun f => f != "All")).contains category
    · rw [if_pos hc]
      by_cases hu : (l.filter (fun f => f != "All")).filter (fun f => f != category) = []
      · simp [hu]
      · rw [if_neg hu]
        have hAllu : "All" ∉ (l.filter (fun f => f != "All")).filter
            (fun f => f != category) := by
          intro hmem
          exact hnotAll (List.mem_filter.mp hmem).1
        refine ⟨hu, ?_, ?_⟩
        · intro hmem
          exact absurd hmem hAllu
        · intro heq
          rw [heq] at hAllu
          simp at hAllu
    · rw [if_neg hc]
      refine ⟨by simp, ?_, ?_⟩
      · intro hmem
        rcases List.mem_append.mp hmem with h1 | h1
        · exact absurd h1 hnotAll
        · simp at h1
          exact (hAll h1.symm).elim
      · intro heq
        have : "All" ∈ l.filter (fun f => f != "All") ++ [category] := by
          rw [heq]
          simp
        rcases List.mem_append.mp this with h1 | h1
        · exact absurd h1 hnotAll
        · simp at h1
          exact (hAll h1.symm).elim

/-- C9: starting from the initial `['All']` state, any sequence of filter
toggles leaves the active list non-empty, and the list contains All
exactly when it is the singleton All list. -/
theorem c9_toggle_sequence_invariant (clicks : List String) :
    filterInvariant (clicks.foldl (fun l category => handleFilterToggle category l)
      ["All"]) := by
  suffices h : ∀ l : List String, filterInvariant l →
      filterInvariant (clicks.foldl (fun l category => handleFilterToggle category l) l) by
    refine h ["All"] ⟨by simp, by simp⟩
  induction clicks with
  | nil => intro l hl; simpa using hl
  | cons c cs ih =>
    intro l hl
    rw [List.foldl_cons]
    exact ih _ (handleFilterToggle_invariant c l)

/-- The downward scan of the scroll handler finds exactly the last nav
item, in nav order, whose section exists with a top offset at most the
scroll position. -/
theorem scrollScan_eq_lastSectionHit (dom : String → Option Nat)
    (scrollPosition : Nat) (items : List NavItem) :
    scrollScan dom scrollPosition items = lastSectionHit dom scrollPosition items := by
  induction items with
  | nil => rfl
  | cons item rest ih =>
    unfold scrollScan lastSectionHit
    rw [List.reverse_cons, List.find?_append]
    unfold lastSectionHit at ih
    rw [ih]
    cases hrest : List.find? (fun item => match dom item.id with
        | some offsetTop => decide (offsetTop ≤ scrollPosition)
        | none => false) rest.reverse with
    | some found => simp [Option.or]
    | none =>
      simp only [Option.map_none, Option.or]
      cases hdom : dom item.id with
      | some offsetTop =>
        by_cases hle : offsetTop ≤ scrollPosition <;>
          simp [List.find?, hdom, hle]
      | none => simp [List.find?, hdom]

/-- C6: on the home page the scroll handler sets the active section to the
last section in nav-item order whose top offset is at most the scroll
position plus 100 pixels, and leaves the active section unchanged when no
section qualifies; on blog-post pages it returns early without touching
the active section. -/
theorem c6_scroll_spy_selects_last_hit (dom : String → Option Nat)
    (scrollY : Nat) (activeSection : String) :
    handleScroll false dom scrollY activeSection =
      (lastSectionHit dom (scrollY + 100) NAV_ITEMS).getD activeSection ∧
    handleScroll true dom scrollY activeSection = activeSection := by
  refine ⟨?_, rfl⟩
  unfold handleScroll
  rw [if_neg (by simp), scrollScan_eq_lastSectionHit]
  cases lastSectionHit dom (scrollY + 100) NAV_ITEMS <;> rfl

/-! ## Claim C4 -/

/-- C4 counterexample: two failure modes besides markdown loading do have
handlers.  A Mermaid render error is caught and the element receives the
fallback error markup instead of being left alone, and a throwing contact
form submission is caught and surfaces the error toast. -/
theorem c4_counterexample :
    renderDiagram "graph TD" true (RenderResult.err "parse error") =
      some (mermaidErrorBox "graph TD") ∧
    renderDiagram "graph TD" true (RenderResult.err "parse error") ≠ none ∧
    ContactEffect.toastError ∈ handleSubmit ⟨"", "", "", ""⟩ true := by
  refine ⟨rfl, by simp [renderDiagram, mermaidErrorBox], by simp [handleSubmit]⟩

/-- C4 amended: markdown-load failure is handled with the static message
(set exactly when the fetch did not succeed and the import rejects); in
addition, a diagram-render failure is handled by the renderer's catch
block, which writes the error banner into the element, and a throwing
contact-form submission is handled by a catch block that shows the error
toast. -/
theorem c4_amended_handled_failures (sl : String) (h : sl ≠ "")
    (fetch : FetchResult) (chart : String) (hc : chart ≠ "") (msg : String)
    (fd : ContactFormData) :
    ((loadBlogPost (some sl) fetch ImportResult.throws
        initialBlogPostState).1.error = failedMessage ↔
      ∀ text, fetch ≠ FetchResult.ok text) ∧
    renderDiagram chart true (RenderResult.err msg) =
      some (mermaidErrorBox chart) ∧
    ContactEffect.toastError ∈ handleSubmit fd true := by
  refine ⟨?_, ?_, by simp [handleSubmit]⟩
  · cases fetch <;>
      simp [loadBlogPost, catchFallback, h, failedMessage, initialBlogPostState]
  · simp [renderDiagram, hc]

/-- C4 amended, witnessed at concrete failures: a non-ok fetch with a
rejecting import yields the static loader message, a failing render of a
concrete chart yields the checked error markup, and a throwing submit of
concrete form data yields the error toast. -/
theorem c4_amended_handled_failures_witness :
    (loadBlogPost (some "production-ready-rag-systems") FetchResult.notOk
        ImportResult.throws initialBlogPostState).1.error = failedMessage ∧
    renderDiagram "graph TD" true (RenderResult.err "boom") =
      some (mermaidErrorBox "graph TD") ∧
    ContactEffect.toastError ∈ handleSubmit ⟨"Jo", "jo@ex.com", "Hi", "Hello"⟩ true :=
  ⟨((c4_amended_handled_failures "production-ready-rag-systems" (by decide)
      FetchResult.notOk "graph TD" (by decide) "boom"
      ⟨"Jo", "jo@ex.com", "Hi", "Hello"⟩).1).mpr
      (fun text heq => FetchResult.noConfusion heq),
   (c4_amended_handled_failures "production-ready-rag-systems" (by decide)
      FetchResult.notOk "graph TD" (by decide) "boom"
      ⟨"Jo", "jo@ex.com", "Hi", "Hello"⟩).2.1,
   (c4_amended_handled_failures "production-ready-rag-systems" (by decide)
      FetchResult.notOk "graph TD" (by decide) "boom"
      ⟨"Jo", "jo@ex.com", "Hi", "Hello"⟩).2.2⟩

end Portfolio
